import Mathlib

/-!
Shallow embedding of the primary/replica (master/slave) PostgreSQL connection
manager of `go-libs` (`pkg/postgres/config.go`, `pkg/postgres/gorm/master_slave.go`,
the identical pgx variant in the same package, and
`pkg/database/postgres/gorm/connection.go`).

Durations are modelled as natural numbers (nanoseconds).  Network outcomes
(connect attempts, health probes, close errors) are supplied by oracles, one
result per attempt, mirroring what the corresponding Go call would have
returned.  Each operation of the manager returns the updated state together
with a list of observable events (lock acquisition/release, probes, connect
attempts, handle closes/installs, role writes), which lets us settle the
ordering and locking claims.
-/

namespace GoLibs

/-- Mirror of `Config` in `pkg/postgres/config.go`: the per-endpoint
PostgreSQL configuration.  Durations are Nat nanoseconds; `maxRetries`
is a Nat (the Go field is an `int` that is only ever given non-negative
values). -/
structure Config where
  host : String
  port : Int
  user : String
  password : String
  database : String
  sslMode : String
  maxOpenConns : Int
  maxIdleConns : Int
  connMaxLifetime : Nat
  connMaxIdleTime : Nat
  connectTimeout : Nat
  queryTimeout : Nat
  maxRetries : Nat
  retryInterval : Nat
deriving Repr, DecidableEq

/-- Mirror of `Config.Validate` in `pkg/postgres/config.go`. -/
def Config.Validate (c : Config) : Except String Unit :=
  if c.host = "" then .error "host is required"
  else if c.port ≤ 0 ∨ c.port > 65535 then .error "port must be between 1 and 65535"
  else if c.user = "" then .error "user is required"
  else if c.database = "" then .error "database is required"
  else if c.maxOpenConns ≤ 0 then .error "max_open_conns must be greater than 0"
  else if c.maxIdleConns < 0 then .error "max_idle_conns must be greater than or equal to 0"
  else if c.maxIdleConns > c.maxOpenConns then
    .error "max_idle_conns cannot be greater than max_open_conns"
  else .ok ()

/-- Mirror of `MasterSlaveConfig` in `pkg/postgres/config.go` (the embedded
`GormMasterSlaveConfig` adds only GORM logging/statement options that do not
affect the manager's control flow). -/
structure MasterSlaveConfig where
  master : Option Config
  slave : Option Config
  useSlaveConnection : Bool
  slaveReadOnly : Bool
  autoFailover : Bool
  failoverRetries : Nat
  failoverInterval : Nat
  healthCheckEnabled : Bool
  healthCheckInterval : Nat
deriving Repr, DecidableEq

/-- Mirror of `MasterSlaveConfig.Validate` in `pkg/postgres/config.go`. -/
def MasterSlaveConfig.Validate (c : MasterSlaveConfig) : Except String Unit :=
  match c.master with
  | none => .error "master configuration is required"
  | some m =>
    match m.Validate with
    | .error e => .error ("invalid master configuration: " ++ e)
    | .ok _ =>
      if c.useSlaveConnection then
        match c.slave with
        | none => .error "slave configuration is required when use_slave_connection is true"
        | some sl =>
          match sl.Validate with
          | .error e => .error ("invalid slave configuration: " ++ e)
          | .ok _ => .ok ()
      else .ok ()

/-! ### Single-endpoint `Connection.Connect`

Mirror of `Connection.Connect` in `pkg/database/postgres/gorm/connection.go`
(the pgx variant at the end of `pkg/postgres/gorm/master_slave.go` has the
identical retry structure).  `attemptErr i` is the outcome of the i-th
`connectWithTimeout` call (`none` = success); `cancelled i` says whether the
caller's context is observed cancelled during the wait that follows the
i-th failed attempt. -/

/-- Exit condition of the Go retry loop in `Connection.Connect`. -/
inductive LoopExit where
  | success
  | ctxCancelled
  | exhausted (lastErr : String)
deriving Repr, DecidableEq

/-- Observable trace of the retry loop: how many `connectWithTimeout`
attempts ran, the completed backoff waits in order, and the exit. -/
structure LoopTrace where
  attempts : Nat
  waits : List Nat
  exit : LoopExit
deriving Repr, DecidableEq

/-- The retry loop `for i := 0; i <= maxRetries; i++` of
`Connection.Connect`, starting at index `i` with `remaining` further
iterations allowed after this one (so initially `remaining = maxRetries`).
Between a failed attempt `i` and attempt `i+1` it waits
`retryInterval * (i+1)` (linear backoff), unless the context is cancelled
during that wait, in which case it exits with the context error. -/
def connectLoop (retryInterval : Nat) (attemptErr : Nat → Option String)
    (cancelled : Nat → Bool) : Nat → Nat → LoopTrace
  | i, 0 =>
    match attemptErr i with
    | none => ⟨i + 1, [], .success⟩
    | some e => ⟨i + 1, [], .exhausted e⟩
  | i, r + 1 =>
    match attemptErr i with
    | none => ⟨i + 1, [], .success⟩
    | some _ =>
      if cancelled i then ⟨i + 1, [], .ctxCancelled⟩
      else
        let rest := connectLoop retryInterval attemptErr cancelled (i + 1) r
        ⟨rest.attempts, retryInterval * (i + 1) :: rest.waits, rest.exit⟩

/-- Result of `Connection.Connect`. -/
inductive ConnectResult where
  | ok
  | ctxErr
  | connectFailed (msg : String)
  | configInvalid (msg : String)
deriving Repr, DecidableEq

/-- Observable behaviour of one `Connection.Connect` call. -/
structure ConnectTrace where
  attempts : Nat
  waits : List Nat
  result : ConnectResult
deriving Repr, DecidableEq

/-- The wrapping `fmt.Errorf("failed to connect after %d retries: %w", ...)`
applied to the last attempt's error. -/
def connectFailedMsg (maxRetries : Nat) (e : String) : String :=
  "failed to connect after " ++ toString maxRetries ++ " retries: " ++ e

/-- Mirror of `Connection.Connect`: validate the config, then run the retry
loop; on exhaustion wrap the last underlying error. -/
def Connection.Connect (cfg : Config) (attemptErr : Nat → Option String)
    (cancelled : Nat → Bool) : ConnectTrace :=
  match cfg.Validate with
  | .error e => ⟨0, [], .configInvalid ("invalid config: " ++ e)⟩
  | .ok _ =>
    let t := connectLoop cfg.retryInterval attemptErr cancelled 0 cfg.maxRetries
    match t.exit with
    | .success => ⟨t.attempts, t.waits, .ok⟩
    | .ctxCancelled => ⟨t.attempts, t.waits, .ctxErr⟩
    | .exhausted e => ⟨t.attempts, t.waits, .connectFailed (connectFailedMsg cfg.maxRetries e)⟩

/-! ### The master/slave manager `MasterSlaveConnection`

Mirror of `MasterSlaveConnection` in `pkg/postgres/gorm/master_slave.go`
(the pgx `MasterSlaveConnection` in the same file is structurally
identical).  Connection handles are identified by natural numbers allocated
from `nextId`; an `Option Nat` slot models the Go pointer field (`none` =
nil).  Each nested call into a handle (`Connect`, `IsHealthy`, `Close`) is
resolved by an oracle, and is recorded as an event. -/

/-- Observable events of one manager operation.  `lockEx`/`unlockEx` are the
acquisition and release of the exclusive (write) lock `c.mu`. -/
inductive Event where
  | lockEx
  | unlockEx
  | probeMaster (h : Nat) (healthy : Bool)
  | probeSlave (h : Nat) (healthy : Bool)
  | connectAttemptMaster (h : Nat) (ok : Bool)
  | connectAttemptSlave (h : Nat) (ok : Bool)
  | closeHandle (h : Nat)
  | installMaster (h : Nat)
  | installSlave (h : Nat)
  | clearMaster
  | clearSlave
  | setRole (r : String)
  | tickerStop
  | chanClose
  | waitEv (d : Nat)
deriving Repr, DecidableEq

/-- The mutable fields of `MasterSlaveConnection`.  `healthTicker` records
whether `c.healthTicker` is non-nil (set by `startHealthCheck`, never
reset); `stopChanClosed` records whether `close(c.stopChan)` has run. -/
structure MSState where
  masterConn : Option Nat
  slaveConn : Option Nat
  role : String
  healthTicker : Bool
  stopChanClosed : Bool
  nextId : Nat
deriving Repr, DecidableEq

/-- Mirror of `NewMasterSlaveConnection`: no handles, role "master",
fresh (open) stop channel. -/
def newMasterSlaveConnection : MSState :=
  ⟨none, none, "master", false, false, 0⟩

/-- Result of a manager operation.  `panicked` models a Go runtime panic
(such as closing an already-closed channel). -/
inductive MSResult where
  | ok
  | err (msg : String)
  | panicked (msg : String)
deriving Repr, DecidableEq

/-- State, event trace and result of one manager operation. -/
structure MSStep where
  state : MSState
  events : List Event
  result : MSResult
deriving Repr, DecidableEq

/-- Oracle for `MasterSlaveConnection.Connect`: the outcome of the nested
`Connection.Connect` call on the master and on the slave handle
(`none` = success). -/
structure ConnectEnv where
  masterConnectErr : Option String
  slaveConnectErr : Option String
deriving Repr, DecidableEq

/-- Mirror of `MasterSlaveConnection.Connect`: validate, build and connect
the master handle, then the slave handle when `useSlaveConnection`; on a
slave failure close the just-created master handle and reset it to nil; on
success start the health checker when enabled. -/
def MSConnect (cfg : MasterSlaveConfig) (env : ConnectEnv) (s : MSState) : MSStep :=
  match cfg.Validate with
  | .error e => ⟨s, [], .err ("invalid master-slave config: " ++ e)⟩
  | .ok _ =>
    let mh := s.nextId
    let s1 : MSState := { s with masterConn := some mh, nextId := s.nextId + 1 }
    match env.masterConnectErr with
    | some e =>
      ⟨s1, [.connectAttemptMaster mh false], .err ("failed to connect to master: " ++ e)⟩
    | none =>
      if cfg.useSlaveConnection then
        let sh := s1.nextId
        let s2 : MSState := { s1 with slaveConn := some sh, nextId := s1.nextId + 1 }
        match env.slaveConnectErr with
        | some e =>
          let s3 : MSState := { s2 with masterConn := none }
          ⟨s3, [.connectAttemptMaster mh true, .connectAttemptSlave sh false,
                .closeHandle mh, .clearMaster],
            .err ("failed to connect to slave: " ++ e)⟩
        | none =>
          let s3 : MSState :=
            if cfg.healthCheckEnabled then { s2 with healthTicker := true } else s2
          ⟨s3, [.connectAttemptMaster mh true, .connectAttemptSlave sh true], .ok⟩
      else
        let s2 : MSState :=
          if cfg.healthCheckEnabled then { s1 with healthTicker := true } else s1
        ⟨s2, [.connectAttemptMaster mh true], .ok⟩

/-- Mirror of `MasterSlaveConnection.Close`: under the exclusive lock, stop
the ticker and close the stop channel when the ticker exists (a second
`close` of the already-closed channel is a Go runtime panic), then close and
nil both handles, attempting both regardless, and return the first non-nil
close error wrapped with the side that failed.  `closeErr h` is the outcome
of `Close()` on handle `h`. -/
def MSClose (closeErr : Nat → Option String) (s : MSState) : MSStep :=
  if s.healthTicker ∧ s.stopChanClosed then
    ⟨s, [.lockEx, .tickerStop], .panicked "close of closed channel"⟩
  else
    let tickerEvs : List Event :=
      if s.healthTicker then [.tickerStop, .chanClose] else []
    let s0 : MSState :=
      if s.healthTicker then { s with stopChanClosed := true } else s
    let masterErr := match s0.masterConn with
      | some h => closeErr h
      | none => none
    let mEvs : List Event := match s0.masterConn with
      | some h => [.closeHandle h, .clearMaster]
      | none => []
    let s1 : MSState := { s0 with masterConn := none }
    let slaveErr := match s1.slaveConn with
      | some h => closeErr h
      | none => none
    let sEvs : List Event := match s1.slaveConn with
      | some h => [.closeHandle h, .clearSlave]
      | none => []
    let s2 : MSState := { s1 with slaveConn := none }
    let res : MSResult := match masterErr with
      | some e => .err ("error closing master connection: " ++ e)
      | none => match slaveErr with
        | some e => .err ("error closing slave connection: " ++ e)
        | none => .ok
    ⟨s2, .lockEx :: tickerEvs ++ mEvs ++ sEvs ++ [.unlockEx], res⟩

/-- Oracle for one health-check tick: the probe results the two handles
would report this tick, and the outcomes of the i-th reconnect attempt on
each side (`none` = success). -/
structure ProbeEnv where
  masterHealthy : Bool
  slaveHealthy : Bool
  masterReconnectErr : Nat → Option String
  slaveReconnectErr : Nat → Option String

/-- Mirror of `MasterSlaveConnection.IsHealthy`: true when the master handle
exists and is healthy, or when auto-failover is enabled and the slave handle
exists and is healthy. -/
def IsHealthy (cfg : MasterSlaveConfig) (env : ProbeEnv) (s : MSState) : Bool :=
  (s.masterConn.isSome && env.masterHealthy) ||
  (cfg.autoFailover && s.slaveConn.isSome && env.slaveHealthy)

/-- Accessor `GetMasterClient`. -/
def GetMasterClient (s : MSState) : Option Nat := s.masterConn

/-- Accessor `GetSlaveClient`. -/
def GetSlaveClient (s : MSState) : Option Nat := s.slaveConn

/-- Accessor `HasSlaveConnected`. -/
def HasSlaveConnected (s : MSState) : Bool := s.slaveConn.isSome

/-- Accessor `IsMaster`. -/
def IsMaster (s : MSState) : Bool := s.role = "master"

/-- Accessor `IsSlave`. -/
def IsSlave (s : MSState) : Bool := s.role = "slave"

/-- The loop body of `attemptMasterReconnect`, starting at attempt index `i`
with `r` iterations left.  A successful attempt closes the old master handle
(if any), installs the new handle and sets the role back to "master" — in
that source order: the `Close` of the old handle happens before the
assignment `c.masterConn = conn`.  A failed attempt sleeps
`failoverInterval` and retries. -/
def masterReconnectLoop (env : ProbeEnv) (failoverInterval : Nat) :
    Nat → Nat → MSState → MSState × List Event
  | _, 0, s => (s, [])
  | i, r + 1, s =>
    let h := s.nextId
    let s1 : MSState := { s with nextId := s.nextId + 1 }
    match env.masterReconnectErr i with
    | none =>
      let closeEvs : List Event := match s1.masterConn with
        | some old => [.closeHandle old]
        | none => []
      let s2 : MSState := { s1 with masterConn := some h, role := "master" }
      (s2, .connectAttemptMaster h true ::
            closeEvs ++ [.installMaster h, .setRole "master"])
    | some _ =>
      let p := masterReconnectLoop env failoverInterval (i + 1) r s1
      (p.1, .connectAttemptMaster h false :: .waitEv failoverInterval :: p.2)

/-- Mirror of `attemptMasterReconnect`: up to `failoverRetries` attempts. -/
def attemptMasterReconnect (cfg : MasterSlaveConfig) (env : ProbeEnv) (s : MSState) :
    MSState × List Event :=
  masterReconnectLoop env cfg.failoverInterval 0 cfg.failoverRetries s

/-- The loop body of `attemptSlaveReconnect` (like the master loop but the
role is not written). -/
def slaveReconnectLoop (env : ProbeEnv) (failoverInterval : Nat) :
    Nat → Nat → MSState → MSState × List Event
  | _, 0, s => (s, [])
  | i, r + 1, s =>
    let h := s.nextId
    let s1 : MSState := { s with nextId := s.nextId + 1 }
    match env.slaveReconnectErr i with
    | none =>
      let closeEvs : List Event := match s1.slaveConn with
        | some old => [.closeHandle old]
        | none => []
      let s2 : MSState := { s1 with slaveConn := some h }
      (s2, .connectAttemptSlave h true :: closeEvs ++ [.installSlave h])
    | some _ =>
      let p := slaveReconnectLoop env failoverInterval (i + 1) r s1
      (p.1, .connectAttemptSlave h false :: .waitEv failoverInterval :: p.2)

/-- Mirror of `attemptSlaveReconnect`. -/
def attemptSlaveReconnect (cfg : MasterSlaveConfig) (env : ProbeEnv) (s : MSState) :
    MSState × List Event :=
  slaveReconnectLoop env cfg.failoverInterval 0 cfg.failoverRetries s

/-- The probe calls of `checkHealth`: `c.masterConn != nil &&
c.masterConn.IsHealthy(ctx)` probes the master only when the handle exists,
likewise for the slave. -/
def checkHealthProbes (env : ProbeEnv) (s : MSState) : List Event :=
  (match s.masterConn with
   | some h => [.probeMaster h env.masterHealthy]
   | none => []) ++
  (match s.slaveConn with
   | some h => [.probeSlave h env.slaveHealthy]
   | none => [])

/-- The decision branches of `checkHealth` (run under the exclusive lock):
master down + slave healthy + auto-failover → set role "slave"; master
healthy + slave down (slave configured) → slave reconnect; both down →
master reconnect then (if a slave handle exists) slave reconnect; otherwise
no action. -/
def checkHealthBody (cfg : MasterSlaveConfig) (env : ProbeEnv) (s : MSState) :
    MSState × List Event :=
  let masterHealthy := s.masterConn.isSome && env.masterHealthy
  let slaveHealthy := s.slaveConn.isSome && env.slaveHealthy
  if !masterHealthy && slaveHealthy && cfg.autoFailover then
    ({ s with role := "slave" }, [.setRole "slave"])
  else if masterHealthy && !slaveHealthy && s.slaveConn.isSome then
    attemptSlaveReconnect cfg env s
  else if !masterHealthy && !slaveHealthy then
    let pa := attemptMasterReconnect cfg env s
    if pa.1.slaveConn.isSome then
      let pb := attemptSlaveReconnect cfg env pa.1
      (pb.1, pa.2 ++ pb.2)
    else pa
  else (s, [])

/-- Mirror of `checkHealth`: take the exclusive lock, probe whichever
handles exist (the probes run while the lock is held, exactly as in the
source), run the decision branches, release the lock. -/
def checkHealth (cfg : MasterSlaveConfig) (env : ProbeEnv) (s : MSState) :
    MSState × List Event :=
  let body := checkHealthBody cfg env s
  (body.1, .lockEx :: checkHealthProbes env s ++ body.2 ++ [.unlockEx])

/-! ### Trace predicates -/

/-- Is this event a connect attempt (on either side)? -/
def Event.isConnectAttempt : Event → Bool
  | .connectAttemptMaster _ _ => true
  | .connectAttemptSlave _ _ => true
  | _ => false

/-- Is this event a connect attempt on the master side? -/
def Event.isMasterAttempt : Event → Bool
  | .connectAttemptMaster _ _ => true
  | _ => false

/-- Is this event a write of the role field? -/
def Event.isSetRole : Event → Bool
  | .setRole _ => true
  | _ => false

/-- Is this event an acquisition or release of the exclusive lock? -/
def Event.isLockEvent : Event → Bool
  | .lockEx => true
  | .unlockEx => true
  | _ => false

/-- Is this event a health probe? -/
def Event.isProbe : Event → Bool
  | .probeMaster _ _ => true
  | .probeSlave _ _ => true
  | _ => false

/-- Every `setRole` in the trace happens while the exclusive lock is held
(`d` is the lock depth when the trace starts). -/
def rolesUnderLock : Nat → List Event → Bool
  | _, [] => true
  | d, .lockEx :: tr => rolesUnderLock (d + 1) tr
  | d, .unlockEx :: tr => rolesUnderLock (d - 1) tr
  | d, .setRole _ :: tr => decide (1 ≤ d) && rolesUnderLock d tr
  | d, _ :: tr => rolesUnderLock d tr

/-- Every `setRole` in the trace writes "master" or "slave". -/
def roleValuesOk (tr : List Event) : Bool :=
  tr.all fun e => match e with
    | .setRole r => r = "master" || r = "slave"
    | _ => true

/-- Every health probe in the trace happens while the exclusive lock is NOT
held — the property the spec asks of the health-check routine. -/
def probesOutsideLock : Nat → List Event → Bool
  | _, [] => true
  | d, .lockEx :: tr => probesOutsideLock (d + 1) tr
  | d, .unlockEx :: tr => probesOutsideLock (d - 1) tr
  | d, .probeMaster _ _ :: tr => decide (d = 0) && probesOutsideLock d tr
  | d, .probeSlave _ _ :: tr => decide (d = 0) && probesOutsideLock d tr
  | d, _ :: tr => probesOutsideLock d tr

/-- Every health probe in the trace happens while the exclusive lock IS
held — what the code actually does. -/
def probesUnderLock : Nat → List Event → Bool
  | _, [] => true
  | d, .lockEx :: tr => probesUnderLock (d + 1) tr
  | d, .unlockEx :: tr => probesUnderLock (d - 1) tr
  | d, .probeMaster _ _ :: tr => decide (1 ≤ d) && probesUnderLock d tr
  | d, .probeSlave _ _ :: tr => decide (1 ≤ d) && probesUnderLock d tr
  | d, _ :: tr => probesUnderLock d tr

/-! ### Multi-operation runs -/

/-- One externally-triggered operation on a manager: a `Connect`, a
health-check tick, or a `Close`, each with its oracle. -/
inductive MSOp where
  | connectOp (env : ConnectEnv)
  | tickOp (env : ProbeEnv)
  | closeOp (closeErr : Nat → Option String)

/-- The state reached after one operation. -/
def applyOp (cfg : MasterSlaveConfig) (s : MSState) : MSOp → MSState
  | .connectOp env => (MSConnect cfg env s).state
  | .tickOp env => (checkHealth cfg env s).1
  | .closeOp ce => (MSClose ce s).state

/-- The state reached from a freshly constructed manager after a sequence
of operations. -/
def runOps (cfg : MasterSlaveConfig) (ops : List MSOp) : MSState :=
  ops.foldl (applyOp cfg) newMasterSlaveConnection

/-! ### Concrete instances used by witnesses and counterexamples -/

/-- The endpoint configuration of `DefaultConfig()` (durations in seconds
for readability; their values do not affect control flow). -/
def defaultEndpointConfig : Config :=
  ⟨"localhost", 5432, "postgres", "", "postgres", "disable", 25, 5, 300, 300, 10, 30, 3, 1⟩

/-- A master-slave configuration with both endpoints, auto-failover and the
health checker enabled (values of `DefaultMasterSlaveConfig()`). -/
def defaultMSConfig : MasterSlaveConfig :=
  ⟨some defaultEndpointConfig, some defaultEndpointConfig,
   true, true, true, 3, 5, true, 30⟩

/-- A manager state with both handles installed (ids 0 and 1), role
"master", health checker running. -/
def bothConnectedState : MSState :=
  ⟨some 0, some 1, "master", true, false, 2⟩

/-- A manager state in the degraded role ("slave") with both handles still
installed. -/
def degradedState : MSState :=
  ⟨some 0, some 1, "slave", true, false, 2⟩

/-- A probe environment: master down, slave healthy, every reconnect
attempt on either side would succeed. -/
def masterDownEnv : ProbeEnv :=
  ⟨false, true, fun _ => none, fun _ => none⟩

/-- A probe environment: master healthy again, slave healthy, every
reconnect attempt would succeed. -/
def bothHealthyEnv : ProbeEnv :=
  ⟨true, true, fun _ => none, fun _ => none⟩

/-- A probe environment: both sides down, every reconnect attempt
succeeds. -/
def bothDownEnv : ProbeEnv :=
  ⟨false, false, fun _ => none, fun _ => none⟩

/-- A connect environment where the master connects but the slave fails. -/
def slaveFailEnv : ConnectEnv := ⟨none, some "connection refused"⟩

/-- A master-slave configuration with no master endpoint configured. -/
def noMasterConfig : MasterSlaveConfig :=
  ⟨none, none, false, false, false, 0, 0, false, 0⟩

/-- How many times handle `old` is closed in a trace. -/
def closeCount (old : Nat) : List Event → Nat
  | [] => 0
  | .closeHandle h :: tr => (if h = old then 1 else 0) + closeCount old tr
  | _ :: tr => closeCount old tr

/-- An event that may legitimately occur inside the lock-held body of
`checkHealth`: not a lock event, and any role write is "master" or
"slave". -/
def tame : Event → Bool
  | .lockEx => false
  | .unlockEx => false
  | .setRole r => decide (r = "master") || decide (r = "slave")
  | _ => true

/-- The configurations the spec calls invalid: master missing or invalid,
or (when the slave connection is enabled) slave missing or invalid. -/
def configBad (cfg : MasterSlaveConfig) : Prop :=
  cfg.master = none ∨
  (∃ m e, cfg.master = some m ∧ m.Validate = .error e) ∨
  (cfg.useSlaveConnection = true ∧
    (cfg.slave = none ∨ ∃ sl e, cfg.slave = some sl ∧ sl.Validate = .error e))

/-! ## Theorems -/

/-- C1: with auto-failover enabled and both handles connected, a
health-check tick that observes the primary unhealthy and the replica
healthy moves the role to "slave" (ReplicaOnlyDegraded) on that very tick —
hence within one `healthCheckInterval` of the primary failing — and
`IsHealthy` still returns true in the degraded state. -/
theorem failover_promotion_one_tick (cfg : MasterSlaveConfig) (env : ProbeEnv)
    (s : MSState) (hm : s.masterConn.isSome = true) (hs : s.slaveConn.isSome = true)
    (haf : cfg.autoFailover = true)
    (hmh : env.masterHealthy = false) (hsh : env.slaveHealthy = true) :
    (checkHealth cfg env s).1.role = "slave" ∧
    IsHealthy cfg env (checkHealth cfg env s).1 = true := by
  unfold checkHealth checkHealthBody IsHealthy
  simp [hm, hs, haf, hmh, hsh]

/-- C1 witness: the promotion theorem applied to the default configuration,
a connected manager and a master-down probe result. -/
theorem failover_promotion_one_tick_witness :
    (checkHealth defaultMSConfig masterDownEnv bothConnectedState).1.role = "slave" ∧
    IsHealthy defaultMSConfig masterDownEnv
      (checkHealth defaultMSConfig masterDownEnv bothConnectedState).1 = true :=
  failover_promotion_one_tick defaultMSConfig masterDownEnv bothConnectedState
    rfl rfl rfl rfl rfl

/-- C2 counterexample: in the degraded state with the primary unhealthy and
the replica healthy, the tick makes NO primary reconnect attempt (it only
re-runs the promotion branch), and once the primary is reachable again
(both probes healthy) the tick still makes no reconnect attempt and the
role stays "slave" — the code never returns to "master" from this state. -/
theorem degraded_no_master_reconnect_cex :
    ((checkHealth defaultMSConfig masterDownEnv degradedState).2.any
        Event.isMasterAttempt = false) ∧
    ((checkHealth defaultMSConfig masterDownEnv degradedState).1.role = "slave") ∧
    ((checkHealth defaultMSConfig bothHealthyEnv degradedState).2.any
        Event.isMasterAttempt = false) ∧
    ((checkHealth defaultMSConfig bothHealthyEnv degradedState).1 = degradedState) := by
  decide

/-- C4 counterexample: on a successful master reconnect (both sides down,
first attempt succeeds) the old handle's close is emitted strictly BEFORE
the new handle is installed in the slot, not after: in this concrete trace
`closeHandle 0` is at index 4 and `installMaster 2` at index 5. -/
theorem swap_close_order_cex :
    (checkHealth defaultMSConfig bothDownEnv bothConnectedState).2 =
      [.lockEx, .probeMaster 0 false, .probeSlave 1 false,
       .connectAttemptMaster 2 true, .closeHandle 0, .installMaster 2,
       .setRole "master", .connectAttemptSlave 3 true, .closeHandle 1,
       .installSlave 3, .unlockEx] ∧
    List.indexOf (Event.closeHandle 0)
        (checkHealth defaultMSConfig bothDownEnv bothConnectedState).2 <
      List.indexOf (Event.installMaster 2)
        (checkHealth defaultMSConfig bothDownEnv bothConnectedState).2 ∧
    List.indexOf (Event.closeHandle 1)
        (checkHealth defaultMSConfig bothDownEnv bothConnectedState).2 <
      List.indexOf (Event.installSlave 3)
        (checkHealth defaultMSConfig bothDownEnv bothConnectedState).2 := by
  decide

/-- C5: on a manager whose health checker was started, the first `Close`
succeeds (and leaves `healthTicker` set with the stop channel closed), and
a second `Close` reaches `close(c.stopChan)` on the already-closed channel:
a Go runtime panic, not a nil return. -/
theorem close_twice_panics_on_started_manager :
    (MSClose (fun _ => none) bothConnectedState).result = .ok ∧
    (MSClose (fun _ => none) bothConnectedState).state.healthTicker = true ∧
    (MSClose (fun _ => none) bothConnectedState).state.stopChanClosed = true ∧
    (MSClose (fun _ => none)
        (MSClose (fun _ => none) bothConnectedState).state).result =
      .panicked "close of closed channel" := by
  decide

/-- C8 counterexample: the health-check trace performs both probes while
the exclusive lock is held, so "no probe under the exclusive lock" fails on
the very first tick of a connected manager. -/
theorem probe_under_lock_cex :
    probesOutsideLock 0
      (checkHealth defaultMSConfig masterDownEnv bothConnectedState).2 = false ∧
    (checkHealth defaultMSConfig masterDownEnv bothConnectedState).2.any
      Event.isProbe = true := by
  decide

/-- C10 counterexample: when the master connects and the slave then fails,
the master slot is closed and cleared (GetMasterClient is nil) but the
slave slot still holds the just-created, never-connected handle, so
GetSlaveClient does NOT return nil (and HasSlaveConnected is true). -/
theorem connect_slave_failure_cex :
    GetMasterClient (MSConnect defaultMSConfig slaveFailEnv
        newMasterSlaveConnection).state = none ∧
    GetSlaveClient (MSConnect defaultMSConfig slaveFailEnv
        newMasterSlaveConnection).state = some 1 ∧
    HasSlaveConnected (MSConnect defaultMSConfig slaveFailEnv
        newMasterSlaveConnection).state = true ∧
    (MSConnect defaultMSConfig slaveFailEnv newMasterSlaveConnection).result =
      .err "failed to connect to slave: connection refused" := by
  decide

/-- When every attempt fails and the context is never cancelled, the retry
loop starting at attempt `i` with `r` further iterations performs all
`r + 1` remaining attempts, waits `retryInterval * (index + 1)` after each
failed attempt except the last, and exits with the last attempt's error. -/
theorem connectLoop_allFail (ri : Nat) (attemptErr : Nat → Option String)
    (hfail : ∀ i, (attemptErr i).isSome = true) :
    ∀ r i, connectLoop ri attemptErr (fun _ => false) i r =
      ⟨i + r + 1, (List.range r).map (fun k => ri * (i + k + 1)),
        .exhausted ((attemptErr (i + r)).getD "")⟩ := by
  intro r
  induction r with
  | zero =>
    intro i
    obtain ⟨e, he⟩ := Option.isSome_iff_exists.mp (hfail i)
    simp [connectLoop, he]
  | succ r ih =>
    intro i
    obtain ⟨e, he⟩ := Option.isSome_iff_exists.mp (hfail i)
    have hrec := ih (i + 1)
    simp only [connectLoop, he, if_neg, Bool.false_eq_true, ite_false, hrec,
      LoopTrace.mk.injEq]
    refine ⟨by omega, ?_, by rw [show i + 1 + r = i + (r + 1) by omega]⟩
    rw [List.range_succ_eq_map]
    simp only [List.map_cons, List.map_map]
    congr 1
    simp
    intro a _
    omega

/-- When attempts keep failing and the context is first observed cancelled
during the wait after attempt `i + k` (with `k` waits still allowed), the
loop aborts with the context error after exactly `i + k + 1` attempts. -/
theorem connectLoop_cancel (ri : Nat) (attemptErr : Nat → Option String)
    (cancelled : Nat → Bool) (hfail : ∀ i, (attemptErr i).isSome = true) :
    ∀ k i r, k < r → cancelled (i + k) = true →
      (∀ j, j < k → cancelled (i + j) = false) →
      (connectLoop ri attemptErr cancelled i r).exit = .ctxCancelled ∧
      (connectLoop ri attemptErr cancelled i r).attempts = i + k + 1 := by
  intro k
  induction k with
  | zero =>
    intro i r hkr hc _
    obtain ⟨r', rfl⟩ : ∃ r', r = r' + 1 := ⟨r - 1, by omega⟩
    obtain ⟨e, he⟩ := Option.isSome_iff_exists.mp (hfail i)
    simp only [Nat.add_zero] at hc
    simp [connectLoop, he, hc]
  | succ k ih =>
    intro i r hkr hc hj
    obtain ⟨r', rfl⟩ : ∃ r', r = r' + 1 := ⟨r - 1, by omega⟩
    obtain ⟨e, he⟩ := Option.isSome_iff_exists.mp (hfail i)
    have hc0 : cancelled i = false := by
      have := hj 0 (Nat.succ_pos k)
      simpa using this
    have hrec := ih (i + 1) r' (by omega)
      (by rw [show i + 1 + k = i + (k + 1) by omega]; exact hc)
      (by
        intro j hjk
        rw [show i + 1 + j = i + (j + 1) by omega]
        exact hj (j + 1) (by omega))
    simp only [connectLoop, he, hc0, Bool.false_eq_true, ite_false]
    exact ⟨hrec.1, by rw [hrec.2]; omega⟩

/-- C3: for a valid configuration with `MaxRetries = n`, if every connection
attempt fails and the context is never cancelled, `Connect` performs exactly
`n + 1` attempts, waits `RetryInterval * attemptIndex` between consecutive
attempts (linear backoff) and returns an error wrapping the last underlying
connect error; and if the context is first cancelled during the wait
following attempt `k`, it aborts right there with the context error. -/
theorem connect_bounded_retry (cfg : Config) (attemptErr : Nat → Option String)
    (hvalid : cfg.Validate = .ok ())
    (hfail : ∀ i, (attemptErr i).isSome = true) :
    ((Connection.Connect cfg attemptErr (fun _ => false)).attempts =
        cfg.maxRetries + 1 ∧
      (Connection.Connect cfg attemptErr (fun _ => false)).waits =
        (List.range cfg.maxRetries).map (fun k => cfg.retryInterval * (k + 1)) ∧
      (Connection.Connect cfg attemptErr (fun _ => false)).result =
        .connectFailed
          (connectFailedMsg cfg.maxRetries ((attemptErr cfg.maxRetries).getD ""))) ∧
    (∀ (cancelled : Nat → Bool) (k : Nat), k < cfg.maxRetries →
      cancelled k = true → (∀ j, j < k → cancelled j = false) →
      (Connection.Connect cfg attemptErr cancelled).result = .ctxErr ∧
      (Connection.Connect cfg attemptErr cancelled).attempts = k + 1) := by
  constructor
  · have h := connectLoop_allFail cfg.retryInterval attemptErr hfail cfg.maxRetries 0
    unfold Connection.Connect
    rw [hvalid]
    simp only [h]
    refine ⟨by omega, by simp, by simp⟩
  · intro cancelled k hk hc hj
    have h := connectLoop_cancel cfg.retryInterval attemptErr cancelled hfail k 0
      cfg.maxRetries hk (by simpa using hc) (by simpa using hj)
    unfold Connection.Connect
    rw [hvalid]
    rcases hx : connectLoop cfg.retryInterval attemptErr cancelled 0 cfg.maxRetries
      with ⟨a, w, ex⟩
    rw [hx] at h
    simp only at h
    rw [h.1]
    exact ⟨rfl, by simpa using h.2⟩

/-- C3 witness: the default endpoint configuration (`maxRetries = 3`,
`retryInterval = 1`) with attempts that always fail: 4 attempts, waits
1, 2, 3, and the wrapped final error; and with a context first cancelled
during the wait after attempt 1: the context error after 2 attempts. -/
theorem connect_bounded_retry_witness :
    (Connection.Connect defaultEndpointConfig (fun _ => some "boom")
        (fun _ => false)).attempts = 4 ∧
    (Connection.Connect defaultEndpointConfig (fun _ => some "boom")
        (fun _ => false)).waits = [1, 2, 3] ∧
    (Connection.Connect defaultEndpointConfig (fun _ => some "boom")
        (fun _ => false)).result =
      .connectFailed "failed to connect after 3 retries: boom" ∧
    (Connection.Connect defaultEndpointConfig (fun _ => some "boom")
        (fun i => i == 1)).result = .ctxErr ∧
    (Connection.Connect defaultEndpointConfig (fun _ => some "boom")
        (fun i => i == 1)).attempts = 2 := by
  have h := connect_bounded_retry defaultEndpointConfig (fun _ => some "boom")
    rfl (fun _ => rfl)
  have hcancel := h.2 (fun i => i == 1) 1 (by decide) (by decide)
    (by intro j hj; interval_cases j; rfl)
  refine ⟨h.1.1, ?_, ?_, hcancel.1, hcancel.2⟩
  · rw [h.1.2.1]; rfl
  · rw [h.1.2.2]; rfl

/-- The master reconnect loop either fails every attempt — leaving the old
handle installed and never closing it — or succeeds: then the trace is some
close-free prefix of failed attempts followed, in immediate succession, by
the successful attempt, the close of the OLD handle, the install of the new
handle and the role write; so the old handle is closed exactly once, and
the close comes right before the install. -/
theorem masterReconnectLoop_swap (env : ProbeEnv) (fi : Nat) :
    ∀ r i s oldM, s.masterConn = some oldM →
    ((masterReconnectLoop env fi i r s).1.masterConn = some oldM ∧
      closeCount oldM (masterReconnectLoop env fi i r s).2 = 0) ∨
    (∃ h pre, (masterReconnectLoop env fi i r s).1.masterConn = some h ∧
      (masterReconnectLoop env fi i r s).2 =
        pre ++ [.connectAttemptMaster h true, .closeHandle oldM,
                .installMaster h, .setRole "master"] ∧
      closeCount oldM pre = 0) := by
  intro r
  induction r with
  | zero =>
    intro i s oldM hm
    exact Or.inl ⟨hm, rfl⟩
  | succ r ih =>
    intro i s oldM hm
    cases he : env.masterReconnectErr i with
    | none =>
      right
      refine ⟨s.nextId, [], ?_, ?_, rfl⟩
      · simp [masterReconnectLoop, he]
      · simp [masterReconnectLoop, he, hm]
    | some e =>
      have hrec := ih (i + 1) { s with nextId := s.nextId + 1 } oldM hm
      rcases hrec with ⟨h1, h2⟩ | ⟨h, pre, h1, h2, h3⟩
      · left
        constructor
        · simpa [masterReconnectLoop, he] using h1
        · simp [masterReconnectLoop, he, closeCount, h2]
      · right
        refine ⟨h, .connectAttemptMaster s.nextId false :: .waitEv fi :: pre, ?_, ?_, ?_⟩
        · simpa [masterReconnectLoop, he] using h1
        · simp [masterReconnectLoop, he, h2]
        · simp [closeCount, h3]

/-- Slave-side analogue of `masterReconnectLoop_swap` (no role write). -/
theorem slaveReconnectLoop_swap (env : ProbeEnv) (fi : Nat) :
    ∀ r i s oldS, s.slaveConn = some oldS →
    ((slaveReconnectLoop env fi i r s).1.slaveConn = some oldS ∧
      closeCount oldS (slaveReconnectLoop env fi i r s).2 = 0) ∨
    (∃ h pre, (slaveReconnectLoop env fi i r s).1.slaveConn = some h ∧
      (slaveReconnectLoop env fi i r s).2 =
        pre ++ [.connectAttemptSlave h true, .closeHandle oldS, .installSlave h] ∧
      closeCount oldS pre = 0) := by
  intro r
  induction r with
  | zero =>
    intro i s oldS hs
    exact Or.inl ⟨hs, rfl⟩
  | succ r ih =>
    intro i s oldS hs
    cases he : env.slaveReconnectErr i with
    | none =>
      right
      refine ⟨s.nextId, [], ?_, ?_, rfl⟩
      · simp [slaveReconnectLoop, he]
      · simp [slaveReconnectLoop, he, hs]
    | some e =>
      have hrec := ih (i + 1) { s with nextId := s.nextId + 1 } oldS hs
      rcases hrec with ⟨h1, h2⟩ | ⟨h, pre, h1, h2, h3⟩
      · left
        constructor
        · simpa [slaveReconnectLoop, he] using h1
        · simp [slaveReconnectLoop, he, closeCount, h2]
      · right
        refine ⟨h, .connectAttemptSlave s.nextId false :: .waitEv fi :: pre, ?_, ?_, ?_⟩
        · simpa [slaveReconnectLoop, he] using h1
        · simp [slaveReconnectLoop, he, h2]
        · simp [closeCount, h3]

/-- `closeCount` distributes over list append. -/
theorem closeCount_append (old : Nat) (l1 l2 : List Event) :
    closeCount old (l1 ++ l2) = closeCount old l1 + closeCount old l2 := by
  induction l1 with
  | nil => simp [closeCount]
  | cons e tl ih =>
    cases e <;> simp [closeCount, ih, Nat.add_assoc]

/-- The master reconnect loop never touches the slave slot. -/
theorem masterReconnectLoop_slaveConn (env : ProbeEnv) (fi : Nat) :
    ∀ r i s, (masterReconnectLoop env fi i r s).1.slaveConn = s.slaveConn := by
  intro r
  induction r with
  | zero => intro i s; rfl
  | succ r ih =>
    intro i s
    cases he : env.masterReconnectErr i with
    | none => simp [masterReconnectLoop, he]
    | some e => simp [masterReconnectLoop, he, ih]

/-- The slave reconnect loop never writes the role. -/
theorem slaveReconnectLoop_role (env : ProbeEnv) (fi : Nat) :
    ∀ r i s, (slaveReconnectLoop env fi i r s).1.role = s.role := by
  intro r
  induction r with
  | zero => intro i s; rfl
  | succ r ih =>
    intro i s
    cases he : env.slaveReconnectErr i with
    | none => simp [slaveReconnectLoop, he]
    | some e => simp [slaveReconnectLoop, he, ih]

/-- The master reconnect loop leaves the role unchanged (all attempts
failed) or writes "master" (an attempt succeeded). -/
theorem masterReconnectLoop_role (env : ProbeEnv) (fi : Nat) :
    ∀ r i s, (masterReconnectLoop env fi i r s).1.role = s.role ∨
      (masterReconnectLoop env fi i r s).1.role = "master" := by
  intro r
  induction r with
  | zero => intro i s; exact Or.inl rfl
  | succ r ih =>
    intro i s
    cases he : env.masterReconnectErr i with
    | none => right; simp [masterReconnectLoop, he]
    | some e =>
      rcases ih (i + 1) { s with nextId := s.nextId + 1 } with h | h
      · left; simpa [masterReconnectLoop, he] using h
      · right; simpa [masterReconnectLoop, he] using h

/-- If at least one retry is allowed, the master reconnect loop's trace
contains a master connect attempt (its first event is one). -/
theorem masterReconnectLoop_hasAttempt (env : ProbeEnv) (fi : Nat)
    (r i : Nat) (s : MSState) (hr : 1 ≤ r) :
    (masterReconnectLoop env fi i r s).2.any Event.isMasterAttempt = true := by
  obtain ⟨r', rfl⟩ : ∃ r', r = r' + 1 := ⟨r - 1, by omega⟩
  cases he : env.masterReconnectErr i with
  | none => simp [masterReconnectLoop, he, Event.isMasterAttempt]
  | some e => simp [masterReconnectLoop, he, Event.isMasterAttempt]

/-- Every event the master reconnect loop emits is tame (no lock events,
only "master" role writes). -/
theorem masterReconnectLoop_tame (env : ProbeEnv) (fi : Nat) :
    ∀ r i s, (masterReconnectLoop env fi i r s).2.all tame = true := by
  intro r
  induction r with
  | zero => intro i s; rfl
  | succ r ih =>
    intro i s
    cases he : env.masterReconnectErr i with
    | none =>
      cases hm : s.masterConn with
      | none => simp [masterReconnectLoop, he, hm, tame]
      | some old => simp [masterReconnectLoop, he, hm, tame]
    | some e => simp [masterReconnectLoop, he, tame, ih]

/-- Every event the slave reconnect loop emits is tame. -/
theorem slaveReconnectLoop_tame (env : ProbeEnv) (fi : Nat) :
    ∀ r i s, (slaveReconnectLoop env fi i r s).2.all tame = true := by
  intro r
  induction r with
  | zero => intro i s; rfl
  | succ r ih =>
    intro i s
    cases he : env.slaveReconnectErr i with
    | none =>
      cases hs : s.slaveConn with
      | none => simp [slaveReconnectLoop, he, hs, tame]
      | some old => simp [slaveReconnectLoop, he, hs, tame]
    | some e => simp [slaveReconnectLoop, he, tame, ih]

/-- The probe events are tame. -/
theorem checkHealthProbes_tame (env : ProbeEnv) (s : MSState) :
    (checkHealthProbes env s).all tame = true := by
  unfold checkHealthProbes
  cases s.masterConn <;> cases s.slaveConn <;> simp [tame]

/-- Every event of the decision body of `checkHealth` is tame. -/
theorem checkHealthBody_tame (cfg : MasterSlaveConfig) (env : ProbeEnv) (s : MSState) :
    (checkHealthBody cfg env s).2.all tame = true := by
  unfold checkHealthBody
  dsimp only
  split
  · simp [tame]
  · split
    · exact slaveReconnectLoop_tame env cfg.failoverInterval cfg.failoverRetries 0 s
    · split
      · split
        · simp only [List.all_append, Bool.and_eq_true]
          exact ⟨masterReconnectLoop_tame env cfg.failoverInterval cfg.failoverRetries 0 s,
            slaveReconnectLoop_tame env cfg.failoverInterval cfg.failoverRetries 0 _⟩
        · exact masterReconnectLoop_tame env cfg.failoverInterval cfg.failoverRetries 0 s
      · rfl

/-- The full `checkHealth` trace is the lock acquisition, a tame middle
section, and the lock release. -/
theorem checkHealth_trace (cfg : MasterSlaveConfig) (env : ProbeEnv) (s : MSState) :
    (checkHealth cfg env s).2 =
      .lockEx :: (checkHealthProbes env s ++ (checkHealthBody cfg env s).2)
        ++ [.unlockEx] ∧
    (checkHealthProbes env s ++ (checkHealthBody cfg env s).2).all tame = true := by
  constructor
  · simp [checkHealth]
  · simp only [List.all_append, Bool.and_eq_true]
    exact ⟨checkHealthProbes_tame env s, checkHealthBody_tame cfg env s⟩

/-- In a tame middle section followed by the lock release, every role write
happens at lock depth ≥ 1. -/
theorem rolesUnderLock_tame (mid : List Event) (d : Nat) (hd : 1 ≤ d)
    (h : mid.all tame = true) : rolesUnderLock d (mid ++ [.unlockEx]) = true := by
  induction mid generalizing d with
  | nil => simp [rolesUnderLock]
  | cons e tl ih =>
    simp only [List.all_cons, Bool.and_eq_true] at h
    cases e with
    | lockEx => simp [tame] at h
    | unlockEx => simp [tame] at h
    | setRole r => simp [rolesUnderLock, hd, ih d hd h.2]
    | probeMaster h' b => exact ih d hd h.2
    | probeSlave h' b => exact ih d hd h.2
    | connectAttemptMaster h' b => exact ih d hd h.2
    | connectAttemptSlave h' b => exact ih d hd h.2
    | closeHandle h' => exact ih d hd h.2
    | installMaster h' => exact ih d hd h.2
    | installSlave h' => exact ih d hd h.2
    | clearMaster => exact ih d hd h.2
    | clearSlave => exact ih d hd h.2
    | tickerStop => exact ih d hd h.2
    | chanClose => exact ih d hd h.2
    | waitEv d' => exact ih d hd h.2

/-- In a tame middle section followed by the lock release, every probe
happens at lock depth ≥ 1. -/
theorem probesUnderLock_tame (mid : List Event) (d : Nat) (hd : 1 ≤ d)
    (h : mid.all tame = true) : probesUnderLock d (mid ++ [.unlockEx]) = true := by
  induction mid generalizing d with
  | nil => simp [probesUnderLock]
  | cons e tl ih =>
    simp only [List.all_cons, Bool.and_eq_true] at h
    cases e with
    | lockEx => simp [tame] at h
    | unlockEx => simp [tame] at h
    | setRole r => exact ih d hd h.2
    | probeMaster h' b => simp [probesUnderLock, hd, ih d hd h.2]
    | probeSlave h' b => simp [probesUnderLock, hd, ih d hd h.2]
    | connectAttemptMaster h' b => exact ih d hd h.2
    | connectAttemptSlave h' b => exact ih d hd h.2
    | closeHandle h' => exact ih d hd h.2
    | installMaster h' => exact ih d hd h.2
    | installSlave h' => exact ih d hd h.2
    | clearMaster => exact ih d hd h.2
    | clearSlave => exact ih d hd h.2
    | tickerStop => exact ih d hd h.2
    | chanClose => exact ih d hd h.2
    | waitEv d' => exact ih d hd h.2

/-- A tame list passes `roleValuesOk`. -/
theorem roleValuesOk_of_tame (tr : List Event) (h : tr.all tame = true) :
    roleValuesOk tr = true := by
  unfold roleValuesOk
  rw [List.all_eq_true] at h ⊢
  intro e he
  have := h e he
  cases e <;> simp_all [tame]

/-- `MasterSlaveConnection.Connect` never writes the role field. -/
theorem MSConnect_role (cfg : MasterSlaveConfig) (env : ConnectEnv) (s : MSState) :
    (MSConnect cfg env s).state.role = s.role := by
  unfold MSConnect
  dsimp only
  repeat' split
  all_goals rfl

/-- `MasterSlaveConnection.Connect` emits no role-write event. -/
theorem MSConnect_noSetRole (cfg : MasterSlaveConfig) (env : ConnectEnv) (s : MSState) :
    (MSConnect cfg env s).events.any Event.isSetRole = false := by
  unfold MSConnect
  dsimp only
  repeat' split
  all_goals simp [Event.isSetRole]

/-- `MasterSlaveConnection.Close` never writes the role field. -/
theorem MSClose_role (ce : Nat → Option String) (s : MSState) :
    (MSClose ce s).state.role = s.role := by
  unfold MSClose
  dsimp only
  repeat' split
  all_goals rfl

/-- `MasterSlaveConnection.Close` emits no role-write event. -/
theorem MSClose_noSetRole (ce : Nat → Option String) (s : MSState) :
    (MSClose ce s).events.any Event.isSetRole = false := by
  unfold MSClose
  dsimp only
  repeat' split
  all_goals simp [Event.isSetRole]

/-- The decision body of a tick leaves the role unchanged or writes
"slave" (promotion branch) or "master" (successful master reconnect). -/
theorem checkHealthBody_role (cfg : MasterSlaveConfig) (env : ProbeEnv) (s : MSState) :
    (checkHealthBody cfg env s).1.role = s.role ∨
    (checkHealthBody cfg env s).1.role = "slave" ∨
    (checkHealthBody cfg env s).1.role = "master" := by
  unfold checkHealthBody
  dsimp only
  split
  · right; left; rfl
  · split
    · exact Or.inl (slaveReconnectLoop_role env cfg.failoverInterval cfg.failoverRetries 0 s)
    · split
      · split
        · have hsl := slaveReconnectLoop_role env cfg.failoverInterval cfg.failoverRetries 0
            (attemptMasterReconnect cfg env s).1
          rcases masterReconnectLoop_role env cfg.failoverInterval cfg.failoverRetries 0 s
            with h | h
          · exact Or.inl (hsl.trans h)
          · exact Or.inr (Or.inr (hsl.trans h))
        · rcases masterReconnectLoop_role env cfg.failoverInterval cfg.failoverRetries 0 s
            with h | h
          · exact Or.inl h
          · exact Or.inr (Or.inr h)
      · exact Or.inl rfl

/-- One operation preserves the role invariant. -/
theorem applyOp_roleOk (cfg : MasterSlaveConfig) (op : MSOp) (s : MSState)
    (h : s.role = "master" ∨ s.role = "slave") :
    (applyOp cfg s op).role = "master" ∨ (applyOp cfg s op).role = "slave" := by
  cases op with
  | connectOp env => rw [applyOp, MSConnect_role]; exact h
  | tickOp env =>
    rw [applyOp]
    have hb : (checkHealth cfg env s).1.role = (checkHealthBody cfg env s).1.role := rfl
    rw [hb]
    rcases checkHealthBody_role cfg env s with h1 | h1 | h1
    · rw [h1]; exact h
    · exact Or.inr h1
    · exact Or.inl h1
  | closeOp ce => rw [applyOp, MSClose_role]; exact h

/-- Every state reachable from a fresh manager satisfies the role
invariant. -/
theorem runOps_roleOk (cfg : MasterSlaveConfig) (ops : List MSOp) :
    (runOps cfg ops).role = "master" ∨ (runOps cfg ops).role = "slave" := by
  suffices h : ∀ (l : List MSOp) (s : MSState), (s.role = "master" ∨ s.role = "slave") →
      ((l.foldl (applyOp cfg) s).role = "master" ∨
       (l.foldl (applyOp cfg) s).role = "slave") by
    exact h ops newMasterSlaveConnection (Or.inl rfl)
  intro l
  induction l with
  | nil => intro s h; exact h
  | cons op tl ih =>
    intro s h
    exact ih (applyOp cfg s op) (applyOp_roleOk cfg op s h)

/-- C9: the role starts as "master" and, along every sequence of
operations (connects, health ticks, closes), is always exactly one of
"master" / "slave"; every role write in a health tick happens under the
exclusive lock and writes only these two values; `Connect` and `Close`
never write the role at all. -/
theorem role_exclusivity :
    newMasterSlaveConnection.role = "master" ∧
    (∀ (cfg : MasterSlaveConfig) (ops : List MSOp),
      (runOps cfg ops).role = "master" ∨ (runOps cfg ops).role = "slave") ∧
    (∀ (cfg : MasterSlaveConfig) (env : ProbeEnv) (s : MSState),
      rolesUnderLock 0 (checkHealth cfg env s).2 = true ∧
      roleValuesOk (checkHealth cfg env s).2 = true) ∧
    (∀ (cfg : MasterSlaveConfig) (env : ConnectEnv) (s : MSState),
      (MSConnect cfg env s).events.any Event.isSetRole = false) ∧
    (∀ (ce : Nat → Option String) (s : MSState),
      (MSClose ce s).events.any Event.isSetRole = false) := by
  refine ⟨rfl, runOps_roleOk, ?_, MSConnect_noSetRole, MSClose_noSetRole⟩
  intro cfg env s
  obtain ⟨htr, htame⟩ := checkHealth_trace cfg env s
  constructor
  · rw [htr]
    show rolesUnderLock 1 ((checkHealthProbes env s ++ (checkHealthBody cfg env s).2)
      ++ [.unlockEx]) = true
    exact rolesUnderLock_tame _ 1 (by omega) htame
  · rw [htr]
    simp only [List.cons_append, roleValuesOk, List.all_cons, List.all_append]
    have := roleValuesOk_of_tame _ htame
    unfold roleValuesOk at this
    simp_all

/-- C8 (amended behaviour): the tick's trace starts by taking the exclusive
lock, ends by releasing it, and every health probe happens while the lock
is held — the probes' network round-trip is inside the locked region. -/
theorem checkHealth_probes_locked (cfg : MasterSlaveConfig) (env : ProbeEnv)
    (s : MSState) :
    probesUnderLock 0 (checkHealth cfg env s).2 = true ∧
    (checkHealth cfg env s).2.head? = some .lockEx ∧
    (checkHealth cfg env s).2.getLast? = some .unlockEx := by
  obtain ⟨htr, htame⟩ := checkHealth_trace cfg env s
  refine ⟨?_, ?_, ?_⟩
  · rw [htr]
    show probesUnderLock 1 ((checkHealthProbes env s ++ (checkHealthBody cfg env s).2)
      ++ [.unlockEx]) = true
    exact probesUnderLock_tame _ 1 (by omega) htame
  · rw [htr]; rfl
  · rw [htr]
    show ((Event.lockEx :: (checkHealthProbes env s ++ (checkHealthBody cfg env s).2))
      ++ [Event.unlockEx]).getLast? = some Event.unlockEx
    exact List.getLast?_concat _

/-- When the first reconnect attempt succeeds, the master loop restores the
role to "master". -/
theorem masterReconnectLoop_firstOk_role (env : ProbeEnv) (fi i : Nat) (s : MSState)
    (r : Nat) (he : env.masterReconnectErr i = none) :
    (masterReconnectLoop env fi i (r + 1) s).1.role = "master" := by
  simp [masterReconnectLoop, he]

/-- C2 (amended): in the degraded state ("slave") with auto-failover on, a
tick that sees the primary down but the replica healthy re-runs the
promotion branch and attempts NO primary reconnect; a tick that sees both
sides healthy changes nothing, so the role stays "slave" — the primary
becoming reachable again never restores "master" by itself; a primary
reconnect is attempted only when both sides are observed unhealthy, and a
successful first attempt then restores the role to "master". -/
theorem degraded_reconnect_amended (cfg : MasterSlaveConfig) (env : ProbeEnv)
    (s : MSState) (hrole : s.role = "slave") (hm : s.masterConn.isSome = true)
    (hs : s.slaveConn.isSome = true) (haf : cfg.autoFailover = true) :
    (env.masterHealthy = false → env.slaveHealthy = true →
      (checkHealth cfg env s).2.any Event.isMasterAttempt = false ∧
      (checkHealth cfg env s).1.role = "slave") ∧
    (env.masterHealthy = true → env.slaveHealthy = true →
      (checkHealth cfg env s).1 = s ∧ (checkHealth cfg env s).1.role = "slave") ∧
    (env.masterHealthy = false → env.slaveHealthy = false →
      1 ≤ cfg.failoverRetries →
      (checkHealth cfg env s).2.any Event.isMasterAttempt = true ∧
      (env.masterReconnectErr 0 = none →
        (checkHealth cfg env s).1.role = "master")) := by
  obtain ⟨mh, hmc⟩ := Option.isSome_iff_exists.mp hm
  obtain ⟨sh, hsc⟩ := Option.isSome_iff_exists.mp hs
  refine ⟨?_, ?_, ?_⟩
  · intro hmh hsh
    constructor
    · simp [checkHealth, checkHealthBody, checkHealthProbes, hmc, hsc, haf,
        hmh, hsh, Event.isMasterAttempt]
    · simp [checkHealth, checkHealthBody, hmc, hsc, haf, hmh, hsh]
  · intro hmh hsh
    have hst : (checkHealth cfg env s).1 = s := by
      simp [checkHealth, checkHealthBody, hmc, hsc, hmh, hsh]
    exact ⟨hst, by rw [hst, hrole]⟩
  · intro hmh hsh hr
    obtain ⟨r', hr'⟩ : ∃ r', cfg.failoverRetries = r' + 1 :=
      ⟨cfg.failoverRetries - 1, by omega⟩
    have hkl : (masterReconnectLoop env cfg.failoverInterval 0
        cfg.failoverRetries s).1.slaveConn = some sh := by
      rw [masterReconnectLoop_slaveConn, hsc]
    have hatt := masterReconnectLoop_hasAttempt env cfg.failoverInterval
      cfg.failoverRetries 0 s hr
    have hbody : (checkHealthBody cfg env s) =
        ((attemptSlaveReconnect cfg env (masterReconnectLoop env cfg.failoverInterval 0
            cfg.failoverRetries s).1).1,
          (masterReconnectLoop env cfg.failoverInterval 0 cfg.failoverRetries s).2 ++
          (attemptSlaveReconnect cfg env (masterReconnectLoop env cfg.failoverInterval 0
            cfg.failoverRetries s).1).2) := by
      simp [checkHealthBody, hmc, hsc, hmh, hsh, attemptMasterReconnect, hkl]
    constructor
    · have htr := (checkHealth_trace cfg env s).1
      rw [htr]
      simp only [List.cons_append, List.any_cons, List.any_append, hbody, hatt,
        Event.isMasterAttempt, List.any_nil, Bool.or_true, Bool.true_or,
        Bool.false_or, Bool.or_false]
    · intro he0
      have hrole2 : (masterReconnectLoop env cfg.failoverInterval 0
          cfg.failoverRetries s).1.role = "master" := by
        rw [hr']
        exact masterReconnectLoop_firstOk_role env cfg.failoverInterval 0 s r' he0
      have hch : (checkHealth cfg env s).1 = (checkHealthBody cfg env s).1 := rfl
      rw [hch, hbody]
      show (slaveReconnectLoop env cfg.failoverInterval 0 cfg.failoverRetries
        (masterReconnectLoop env cfg.failoverInterval 0 cfg.failoverRetries s).1).1.role
        = "master"
      rw [slaveReconnectLoop_role]
      exact hrole2

/-- C2 (amended) witness: the degraded manager with both sides down and a
reconnect oracle that succeeds immediately: the tick attempts the primary
reconnect and restores the role to "master". -/
theorem degraded_reconnect_amended_witness :
    (checkHealth defaultMSConfig bothDownEnv degradedState).2.any
      Event.isMasterAttempt = true ∧
    (checkHealth defaultMSConfig bothDownEnv degradedState).1.role = "master" ∧
    (checkHealth defaultMSConfig masterDownEnv degradedState).2.any
      Event.isMasterAttempt = false := by
  have h := degraded_reconnect_amended defaultMSConfig bothDownEnv degradedState
    rfl rfl rfl rfl
  have h3 := h.2.2 rfl rfl (by decide)
  have h2 := degraded_reconnect_amended defaultMSConfig masterDownEnv degradedState
    rfl rfl rfl rfl
  exact ⟨h3.1, h3.2 rfl, (h2.1 rfl rfl).1⟩

/-- C4 (amended): for every reconnect attempt sequence on either side, the
old handle is either never closed (all attempts failed, old handle still
installed) or closed exactly once, with the close event immediately
PRECEDING the install of the new handle — the swap happens right after the
close, not before it, and both occur under the exclusive lock held by
`checkHealth`. -/
theorem reconnect_swap_close_amended (cfg : MasterSlaveConfig) (env : ProbeEnv)
    (s : MSState) (oldM oldS : Nat)
    (hm : s.masterConn = some oldM) (hs : s.slaveConn = some oldS) :
    (((attemptMasterReconnect cfg env s).1.masterConn = some oldM ∧
        closeCount oldM (attemptMasterReconnect cfg env s).2 = 0) ∨
      (∃ h pre, (attemptMasterReconnect cfg env s).1.masterConn = some h ∧
        (attemptMasterReconnect cfg env s).2 =
          pre ++ [.connectAttemptMaster h true, .closeHandle oldM,
                  .installMaster h, .setRole "master"] ∧
        closeCount oldM pre = 0 ∧
        closeCount oldM (attemptMasterReconnect cfg env s).2 = 1)) ∧
    (((attemptSlaveReconnect cfg env s).1.slaveConn = some oldS ∧
        closeCount oldS (attemptSlaveReconnect cfg env s).2 = 0) ∨
      (∃ h pre, (attemptSlaveReconnect cfg env s).1.slaveConn = some h ∧
        (attemptSlaveReconnect cfg env s).2 =
          pre ++ [.connectAttemptSlave h true, .closeHandle oldS, .installSlave h] ∧
        closeCount oldS pre = 0 ∧
        closeCount oldS (attemptSlaveReconnect cfg env s).2 = 1)) := by
  constructor
  · rcases masterReconnectLoop_swap env cfg.failoverInterval cfg.failoverRetries 0 s
      oldM hm with ⟨h1, h2⟩ | ⟨h, pre, h1, h2, h3⟩
    · exact Or.inl ⟨h1, h2⟩
    · refine Or.inr ⟨h, pre, h1, h2, h3, ?_⟩
      rw [show (attemptMasterReconnect cfg env s).2 =
        (masterReconnectLoop env cfg.failoverInterval 0 cfg.failoverRetries s).2 from rfl,
        h2, closeCount_append, h3]
      simp [closeCount]
  · rcases slaveReconnectLoop_swap env cfg.failoverInterval cfg.failoverRetries 0 s
      oldS hs with ⟨h1, h2⟩ | ⟨h, pre, h1, h2, h3⟩
    · exact Or.inl ⟨h1, h2⟩
    · refine Or.inr ⟨h, pre, h1, h2, h3, ?_⟩
      rw [show (attemptSlaveReconnect cfg env s).2 =
        (slaveReconnectLoop env cfg.failoverInterval 0 cfg.failoverRetries s).2 from rfl,
        h2, closeCount_append, h3]
      simp [closeCount]

/-- C4 (amended) witness: on the connected manager with both sides down and
an immediately-successful reconnect oracle, each old handle is closed
exactly once. -/
theorem reconnect_swap_close_amended_witness :
    closeCount 0 (attemptMasterReconnect defaultMSConfig bothDownEnv
      bothConnectedState).2 = 1 ∧
    closeCount 1 (attemptSlaveReconnect defaultMSConfig bothDownEnv
      bothConnectedState).2 = 1 := by
  have h := reconnect_swap_close_amended defaultMSConfig bothDownEnv
    bothConnectedState 0 1 rfl rfl
  constructor
  · rcases h.1 with ⟨h1, _⟩ | ⟨_, _, _, _, _, h4⟩
    · exact absurd h1 (by decide)
    · exact h4
  · rcases h.2 with ⟨h1, _⟩ | ⟨_, _, _, _, _, h4⟩
    · exact absurd h1 (by decide)
    · exact h4

/-- C6: `Close` (in the non-panicking case) closes the master handle and
the slave handle (when present) — both closes are attempted regardless of
the first one's outcome — clears both slots, and returns the first non-nil
close error in execution order, wrapped to say which side failed; it
returns ok when both closes succeed. -/
theorem close_attempts_both_returns_first_error (closeErr : Nat → Option String)
    (s : MSState) (mh : Nat) (hm : s.masterConn = some mh)
    (hnp : ¬(s.healthTicker = true ∧ s.stopChanClosed = true)) :
    Event.closeHandle mh ∈ (MSClose closeErr s).events ∧
    (∀ sh, s.slaveConn = some sh → Event.closeHandle sh ∈ (MSClose closeErr s).events) ∧
    (MSClose closeErr s).state.masterConn = none ∧
    (MSClose closeErr s).state.slaveConn = none ∧
    (MSClose closeErr s).result =
      (match closeErr mh with
       | some e => .err ("error closing master connection: " ++ e)
       | none =>
         match s.slaveConn with
         | some sh =>
           (match closeErr sh with
            | some e => .err ("error closing slave connection: " ++ e)
            | none => .ok)
         | none => .ok) := by
  unfold MSClose
  rw [if_neg hnp]
  cases hht : s.healthTicker with
  | false =>
    cases hsc : s.slaveConn with
    | none => simp [hht, hm, hsc]
    | some sh => simp [hht, hm, hsc]
  | true =>
    cases hsc : s.slaveConn with
    | none => simp [hht, hm, hsc]
    | some sh => simp [hht, hm, hsc]

/-- C6 witness: closing a manager whose two handles both fail to close:
both close events are in the trace and the returned error is the master's
(the first encountered), wrapped. -/
theorem close_attempts_both_returns_first_error_witness :
    Event.closeHandle 0 ∈ (MSClose (fun h => if h = 0 then some "m" else some "s")
      bothConnectedState).events ∧
    Event.closeHandle 1 ∈ (MSClose (fun h => if h = 0 then some "m" else some "s")
      bothConnectedState).events ∧
    (MSClose (fun h => if h = 0 then some "m" else some "s")
      bothConnectedState).result = .err "error closing master connection: m" := by
  have h := close_attempts_both_returns_first_error
    (fun h => if h = 0 then some "m" else some "s") bothConnectedState 0 rfl
    (by decide)
  exact ⟨h.1, h.2.1 1 rfl, h.2.2.2.2⟩

/-- A master-slave configuration passes validation exactly when the master
endpoint is present and valid and, when the slave connection is enabled,
the slave endpoint is present and valid. -/
theorem msValidate_ok_iff (cfg : MasterSlaveConfig) :
    cfg.Validate = .ok () ↔
      ((∃ m, cfg.master = some m ∧ m.Validate = .ok ()) ∧
       (cfg.useSlaveConnection = true →
         ∃ sl, cfg.slave = some sl ∧ sl.Validate = .ok ())) := by
  unfold MasterSlaveConfig.Validate
  cases hm : cfg.master with
  | none => simp
  | some m =>
    cases hmv : m.Validate with
    | error e => simp [hmv]
    | ok u =>
      cases u
      cases hu : cfg.useSlaveConnection with
      | false => simp [hmv, hu]
      | true =>
        cases hsl : cfg.slave with
        | none => simp [hmv, hu]
        | some sl =>
          cases hslv : sl.Validate with
          | error e => simp [hmv, hu, hslv]
          | ok u2 =>
            cases u2
            simp [hmv, hu, hslv]

/-- C7: a bad configuration (master missing or invalid, or — with the slave
connection enabled — slave missing or invalid) makes `Connect` fail at
validation: no connect attempt happens, the state is untouched, and the
result wraps the validation error. -/
theorem connect_validates_first (cfg : MasterSlaveConfig) (env : ConnectEnv)
    (s : MSState) (h : configBad cfg) :
    (MSConnect cfg env s).events = [] ∧
    (MSConnect cfg env s).state = s ∧
    (MSConnect cfg env s).events.any Event.isConnectAttempt = false ∧
    ∃ e, cfg.Validate = .error e ∧
      (MSConnect cfg env s).result = .err ("invalid master-slave config: " ++ e) := by
  cases hv : cfg.Validate with
  | ok u =>
    exfalso
    cases u
    obtain ⟨⟨m, hm, hmv⟩, hslave⟩ := (msValidate_ok_iff cfg).mp hv
    rcases h with h | ⟨m', e', hm', hm'e⟩ | ⟨husc, hslv⟩
    · rw [h] at hm; exact Option.noConfusion hm
    · rw [hm] at hm'
      obtain rfl : m = m' := by injection hm'
      rw [hmv] at hm'e
      exact Except.noConfusion hm'e
    · obtain ⟨sl, hsl, hslvOk⟩ := hslave husc
      rcases hslv with h2 | ⟨sl', e', hsl', hsl'e⟩
      · rw [h2] at hsl; exact Option.noConfusion hsl
      · rw [hsl] at hsl'
        obtain rfl : sl = sl' := by injection hsl'
        rw [hslvOk] at hsl'e
        exact Except.noConfusion hsl'e
  | error e =>
    refine ⟨?_, ?_, ?_, e, rfl, ?_⟩ <;> simp [MSConnect, hv]

/-- C7 witness: a configuration with no master endpoint: `Connect` makes no
attempt and leaves the state untouched. -/
theorem connect_validates_first_witness :
    (MSConnect noMasterConfig ⟨none, none⟩ newMasterSlaveConnection).events = [] ∧
    (MSConnect noMasterConfig ⟨none, none⟩ newMasterSlaveConnection).state =
      newMasterSlaveConnection ∧
    (MSConnect noMasterConfig ⟨none, none⟩ newMasterSlaveConnection).result =
      .err "invalid master-slave config: master configuration is required" := by
  have h := connect_validates_first noMasterConfig ⟨none, none⟩
    newMasterSlaveConnection (Or.inl rfl)
  obtain ⟨e, he, hres⟩ := h.2.2.2
  have : e = "master configuration is required" := by
    have : Except.error e = Except.error "master configuration is required" :=
      he.symm.trans rfl
    injection this
  refine ⟨h.1, h.2.1, ?_⟩
  rw [hres, this]
  decide

/-- C10 (amended): when the master connects but the slave's connect fails,
`Connect` closes the just-created master handle and clears its slot before
returning the slave's error wrapped — so `GetMasterClient` is nil — but the
slave slot keeps the just-created, never-connected handle, so
`GetSlaveClient` returns that dead handle instead of nil. -/
theorem connect_slave_failure_cleanup (cfg : MasterSlaveConfig) (env : ConnectEnv)
    (s : MSState) (e : String)
    (hv : cfg.Validate = .ok ()) (hu : cfg.useSlaveConnection = true)
    (hm : env.masterConnectErr = none) (hs : env.slaveConnectErr = some e) :
    (MSConnect cfg env s).events =
      [.connectAttemptMaster s.nextId true, .connectAttemptSlave (s.nextId + 1) false,
       .closeHandle s.nextId, .clearMaster] ∧
    GetMasterClient (MSConnect cfg env s).state = none ∧
    GetSlaveClient (MSConnect cfg env s).state = some (s.nextId + 1) ∧
    (MSConnect cfg env s).result = .err ("failed to connect to slave: " ++ e) := by
  unfold MSConnect GetMasterClient GetSlaveClient
  simp [hv, hu, hm, hs]

/-- C10 (amended) witness: the default configuration with a failing slave
endpoint, applied to a fresh manager. -/
theorem connect_slave_failure_cleanup_witness :
    (MSConnect defaultMSConfig slaveFailEnv newMasterSlaveConnection).events =
      [.connectAttemptMaster 0 true, .connectAttemptSlave 1 false,
       .closeHandle 0, .clearMaster] ∧
    GetMasterClient (MSConnect defaultMSConfig slaveFailEnv
      newMasterSlaveConnection).state = none ∧
    GetSlaveClient (MSConnect defaultMSConfig slaveFailEnv
      newMasterSlaveConnection).state = some 1 ∧
    (MSConnect defaultMSConfig slaveFailEnv newMasterSlaveConnection).result =
      .err "failed to connect to slave: connection refused" :=
  connect_slave_failure_cleanup defaultMSConfig slaveFailEnv
    newMasterSlaveConnection "connection refused" rfl rfl rfl rfl

end GoLibs
